import Mathlib

/-!
Verification development for the `latestwhatapp` WhatsApp session-supervisor
service.  The authoritative implementation is `src/ClientManager.js` (the
`ClientManager` class: three `Map`s keyed by token, event handlers wired to the
underlying `whatsapp-web.js` client) together with the HTTP layer in
`src/index.js`.  Side-effecting JavaScript is embedded as explicit state
passing over `CMState`; a thrown `Error` becomes an error value returned next
to the (unchanged or partially mutated) state; the opaque underlying client
handle is a `Nat`.
-/

/-- Association-list lookup, embedding `Map.prototype.get` (string keys). -/
def mlookup {α : Type} : List (String × α) → String → Option α
  | [], _ => none
  | (k, v) :: rest, t => if k = t then some v else mlookup rest t

/-- Remove every binding of a key, used to embed `Map.prototype.delete`. -/
def mdel {α : Type} (m : List (String × α)) (t : String) : List (String × α) :=
  m.filter (fun p => decide (p.1 ≠ t))

/-- Overwrite the binding of a key, embedding `Map.prototype.set`. -/
def mset {α : Type} (m : List (String × α)) (t : String) (v : α) : List (String × α) :=
  (t, v) :: mdel m t

theorem mlookup_mdel_self {α : Type} (m : List (String × α)) (t : String) :
    mlookup (mdel m t) t = none := by
  induction m with
  | nil => rfl
  | cons p rest ih =>
    by_cases h : p.1 = t
    · simpa [mdel, h] using ih
    · simpa [mdel, mlookup, h] using ih

theorem mlookup_mdel_ne {α : Type} (m : List (String × α)) (t u : String) (h : u ≠ t) :
    mlookup (mdel m t) u = mlookup m u := by
  have h' : t ≠ u := fun he => h he.symm
  induction m with
  | nil => rfl
  | cons p rest ih =>
    simp only [mdel, List.filter_cons, ne_eq, decide_not] at *
    by_cases hp : p.1 = t
    · have hpu : p.1 ≠ u := fun hpu => h (hpu ▸ hp)
      simp [hp, mlookup, hpu, h', ih]
    · by_cases hu : p.1 = u
      · simp [hp, mlookup, hu, h]
      · simp [hp, mlookup, hu, h, ih]

theorem mlookup_mset_self {α : Type} (m : List (String × α)) (t : String) (v : α) :
    mlookup (mset m t v) t = some v := by
  simp [mset, mlookup]

theorem mlookup_mset_ne {α : Type} (m : List (String × α)) (t u : String) (v : α) (h : u ≠ t) :
    mlookup (mset m t v) u = mlookup m u := by
  have ht : t ≠ u := fun he => h he.symm
  simp [mset, mlookup, ht]
  exact mlookup_mdel_ne m t u h

/-- Is `pat` a prefix of `s`?  Helper for the substring test below. -/
def isPrefixB : List Char → List Char → Bool
  | [], _ => true
  | _ :: _, [] => false
  | a :: as, b :: bs => decide (a = b) && isPrefixB as bs

/-- JavaScript `String.prototype.includes`: does `s` contain `pat` as a
contiguous substring?  Operates on the character lists of the strings. -/
def containsB (s pat : List Char) : Bool :=
  match s with
  | [] => pat.isEmpty
  | _ :: rest => isPrefixB pat s || containsB rest pat

/-- `number.includes(pat)` on Lean strings. -/
def jsIncludes (s pat : String) : Bool :=
  containsB s.toList pat.toList

theorem isPrefixB_refl (l : List Char) : isPrefixB l l = true := by
  induction l with
  | nil => rfl
  | cons a as ih => simp [isPrefixB, ih]

theorem isPrefixB_append (l t : List Char) : isPrefixB l (l ++ t) = true := by
  induction l with
  | nil => rfl
  | cons a as ih => simp [isPrefixB, ih]

theorem containsB_append_right (pre s : List Char) (h : containsB s pat = true) :
    containsB (pre ++ s) pat = true := by
  induction pre with
  | nil => simpa using h
  | cons a as ih => simp [containsB, ih]

theorem containsB_self (l : List Char) : containsB l l = true := by
  cases l with
  | nil => rfl
  | cons a as => simp [containsB, isPrefixB_refl]

theorem containsB_append_self (pre l : List Char) : containsB (pre ++ l) l = true :=
  containsB_append_right pre l (containsB_self l)

theorem isPrefixB_mem (pat s : List Char) (h : isPrefixB pat s = true) :
    ∀ c ∈ pat, c ∈ s := by
  induction pat generalizing s with
  | nil => intro c hc; simp at hc
  | cons a as ih =>
    cases s with
    | nil => simp [isPrefixB] at h
    | cons b bs =>
      simp [isPrefixB] at h
      intro c hc
      rcases List.mem_cons.mp hc with hc | hc
      · exact List.mem_cons.mpr (Or.inl (hc.trans h.1))
      · exact List.mem_cons.mpr (Or.inr (ih bs h.2 c hc))

theorem containsB_mem (s pat : List Char) (h : containsB s pat = true) :
    ∀ c ∈ pat, c ∈ s := by
  induction s with
  | nil =>
    intro c hc
    simp [containsB] at h
    simp [h] at hc
  | cons a rest ih =>
    simp [containsB] at h
    intro c hc
    rcases h with h | h
    · exact isPrefixB_mem pat (a :: rest) h c hc
    · exact List.mem_cons.mpr (Or.inr (ih h c hc))

/-- The full in-memory state of a `ClientManager` instance, plus the durable
credential directories under `whatsapp_auth/` (one per token), which
`removeSession` manipulates.  `clients` stores opaque underlying client
handles as `Nat`. -/
structure CMState where
  clients : List (String × Nat)
  qrCodes : List (String × String)
  statuses : List (String × String)
  dirs : List String
deriving DecidableEq

/-- Errors thrown by `ClientManager` methods. -/
inductive CMError where
  | alreadyExists
  | notFound
  | notAuthenticated
  | fetchFailed
deriving DecidableEq

/-- `getQRCode`: `this.qrCodes.get(token) || null` — note the JavaScript
falsiness of the empty string. -/
def getQRCode (st : CMState) (token : String) : Option String :=
  match mlookup st.qrCodes token with
  | some q => if q = "" then none else some q
  | none => none

/-- `getStatus`: `this.statuses.get(token) || 'unknown'`. -/
def getStatus (st : CMState) (token : String) : String :=
  match mlookup st.statuses token with
  | some s => if s = "" then "unknown" else s
  | none => "unknown"

/-- `initializeClient` (src/ClientManager.js lines 20-84): throws
`AlreadyExists` if `this.clients.has(token)`; otherwise constructs a client
(handle `h`), registers handlers, starts initialization and stores the
client with status `'initializing'`.  The whole body is synchronous, so it is
one atomic step on the state; the error case leaves the state untouched. -/
def initializeClient (st : CMState) (token : String) (h : Nat) :
    CMState × Option CMError :=
  if (mlookup st.clients token).isSome then
    (st, some .alreadyExists)
  else
    ({ st with
        clients := mset st.clients token h,
        statuses := mset st.statuses token "initializing" }, none)

/-- Lifecycle events delivered by the underlying `whatsapp-web.js` client,
as handled in `initializeClient`'s `client.on(...)` registrations. -/
inductive CMEvent where
  | qr (token qr : String)
  | ready (token : String)
  | authFailure (token : String)
  | disconnected (token : String)
deriving DecidableEq

/-- The state change performed by the corresponding event handler in
`initializeClient` (src/ClientManager.js lines 41-70).  Note the
`disconnected` handler sets the status to `'logged_out'` but does NOT delete
the stored QR code. -/
def applyEvent (st : CMState) : CMEvent → CMState
  | .qr token q => { st with qrCodes := mset st.qrCodes token q }
  | .ready token =>
      { st with
          statuses := mset st.statuses token "authenticated",
          qrCodes := mdel st.qrCodes token }
  | .authFailure token =>
      { st with
          statuses := mset st.statuses token "auth_failure",
          qrCodes := mdel st.qrCodes token }
  | .disconnected token =>
      { st with statuses := mset st.statuses token "logged_out" }

def applyEvents (st : CMState) (es : List CMEvent) : CMState :=
  es.foldl applyEvent st

/-- Recipient normalization in `sendText`/`sendImage`:
`number.includes('@c.us') ? number : number + '@c.us'`. -/
def normalizeChatId (number : String) : String :=
  if jsIncludes number "@c.us" then number else number ++ "@c.us"

/-- `sendText` (src/ClientManager.js lines 94-106).  The `.ok` payload is the
delegated `client.sendMessage(chatId, message)` call (its chat id and
message); an `.error` result models a throw before any delegated send. -/
def sendText (st : CMState) (token number message : String) :
    Except CMError (String × String) :=
  match mlookup st.clients token with
  | none => .error .notFound
  | some _ =>
    if getStatus st token ≠ "authenticated" then .error .notAuthenticated
    else .ok (normalizeChatId number, message)

/-- `sendImage` (src/ClientManager.js lines 108-120).  `fetchOk` abstracts
whether `fetchImageFromUrl` succeeds; the fetch happens only after both
guards pass.  The `.ok` payload is the delegated
`client.sendMessage(chatId, media, { caption })` call. -/
def sendImage (st : CMState) (token number imageUrl caption : String)
    (fetchOk : Bool) : Except CMError (String × String × String) :=
  match mlookup st.clients token with
  | none => .error .notFound
  | some _ =>
    if getStatus st token ≠ "authenticated" then .error .notAuthenticated
    else if fetchOk then .ok (normalizeChatId number, imageUrl, caption)
    else .error .fetchFailed

/-- `removeSession` (src/ClientManager.js lines 144-174): throws `NotFound`
when the token is unknown; otherwise `client.destroy()` inside `try/catch`
(`destroyFails` abstracts a rejection — caught and logged, no state effect),
deletion of the three map entries, then best-effort `fs.rmSync` of the
per-token credential directory inside `try/catch` (`rmFails` abstracts a
filesystem error — caught and logged, directory left in place). -/
def removeSession (st : CMState) (token : String) (destroyFails rmFails : Bool) :
    CMState × Option CMError :=
  match mlookup st.clients token with
  | none => (st, some .notFound)
  | some _ =>
    let _ := destroyFails
    let st1 : CMState :=
      { st with
          clients := mdel st.clients token,
          qrCodes := mdel st.qrCodes token,
          statuses := mdel st.statuses token }
    if token ∈ st1.dirs then
      if rmFails then (st1, none)
      else ({ st1 with dirs := st1.dirs.filter (fun d => decide (d ≠ token)) }, none)
    else (st1, none)

/-- `listSessions`: `Array.from(this.clients.keys())`. -/
def listSessions (st : CMState) : List String :=
  st.clients.map Prod.fst

/-- The spec's six lifecycle states (§3 of the design document).  The code
keeps only four status strings; `AwaitingCode` is the spec's name for a
session whose status is `'initializing'` while an artifact is stored. -/
inductive SpecState where
  | Initializing
  | AwaitingCode
  | Authenticated
  | AuthFailed
  | LoggedOut
  | Unknown
deriving DecidableEq

/-- Abstraction map from the code's registry state to the spec's state
vocabulary: status string plus artifact presence.  This definition follows
the spec's words (data model §3) and is only used to compare the code's
observable state against the spec's state machine. -/
def specStateView (st : CMState) (token : String) : SpecState :=
  let s := getStatus st token
  if s = "initializing" then
    if (getQRCode st token).isSome then .AwaitingCode else .Initializing
  else if s = "authenticated" then .Authenticated
  else if s = "auth_failure" then .AuthFailed
  else if s = "logged_out" then .LoggedOut
  else .Unknown

/-- No session data of any kind for the token: none of the three maps has an
entry. -/
def noSession (st : CMState) (token : String) : Prop :=
  mlookup st.clients token = none ∧ mlookup st.qrCodes token = none ∧
    mlookup st.statuses token = none

/-- Consume the optional leading plus sign of the E.164 pattern. -/
def stripPlus : List Char → List Char
  | [] => []
  | a :: rest => if a = '+' then rest else a :: rest

/-- `validatePhoneNumber` (src/index.js lines 45-48): the E.164 regex
test with pattern anchored start/end, an optional leading plus sign,
one digit `1`-`9`, then 1 to 14 further digits. -/
def validatePhoneNumber (number : String) : Bool :=
  match stripPlus number.data with
  | [] => false
  | c :: ds =>
      (c.isDigit && decide (c ≠ '0')) && decide (1 ≤ ds.length) &&
        decide (ds.length ≤ 14) && ds.all Char.isDigit

/-- Responses of the `/send-text` and `/send-image-url` handlers in
src/index.js (the authoritative variant, lines 164-231). -/
inductive SendResp where
  | missingFields
  | sessionNotFound
  | invalidRecipient
  | stillInitializing
  | notAuthenticatedResp
  | sentText (chatId message : String)
  | sentImage (chatId imageUrl caption : String)
  | serverError
deriving DecidableEq

/-- `POST /send-text` (src/index.js lines 164-194): required-field check
(JavaScript falsiness of the empty string), session lookup, E.164 recipient
validation, status gating, then delegation to `ClientManager.sendText`. -/
def sendTextEndpoint (st : CMState) (token number message : String) : SendResp :=
  if token = "" ∨ number = "" ∨ message = "" then .missingFields
  else if (mlookup st.clients token).isNone then .sessionNotFound
  else if ¬ validatePhoneNumber number then .invalidRecipient
  else if getStatus st token = "initializing" then .stillInitializing
  else if getStatus st token ≠ "authenticated" then .notAuthenticatedResp
  else
    match sendText st token number message with
    | .ok (chatId, msg) => .sentText chatId msg
    | .error _ => .serverError

/-- `POST /send-image-url` (src/index.js lines 201-231), analogous. -/
def sendImageEndpoint (st : CMState) (token number imageUrl caption : String)
    (fetchOk : Bool) : SendResp :=
  if token = "" ∨ number = "" ∨ imageUrl = "" then .missingFields
  else if (mlookup st.clients token).isNone then .sessionNotFound
  else if ¬ validatePhoneNumber number then .invalidRecipient
  else if getStatus st token = "initializing" then .stillInitializing
  else if getStatus st token ≠ "authenticated" then .notAuthenticatedResp
  else
    match sendImage st token number imageUrl caption fetchOk with
    | .ok (chatId, url, cap) => .sentImage chatId url cap
    | .error _ => .serverError

/-- The polling loop of `GET /qr/:token` (src/index.js lines 140-156):
`avail t` is the value `clientManager.getQRCode(token)` would return at
second `t`.  The loop checks once immediately, then up to `remaining` more
times after one-second sleeps; `none` models falling through to the
`500 — QR code not available yet` timeout response. -/
def qrWaitAux (avail : Nat → Option String) : Nat → Nat → Option String
  | 0, t =>
    match avail t with
    | some q => some q
    | none => none
  | r + 1, t =>
    match avail t with
    | some q => some q
    | none => qrWaitAux avail r (t + 1)

/-- The full wait of `GET /qr/:token`: initial check plus `maxAttempts = 10`
re-checks at one-second intervals. -/
def qrWait (avail : Nat → Option String) : Option String :=
  qrWaitAux avail 10 0

/-- The `POST /pair` wait (the `/pair` endpoint variant kept alongside
src/ClientManager.js, lines 248-257): `await new Promise((resolve) => ...)`
subscribing to the `'code'` event with no timeout of any kind.  With
`events s` the code emitted at second `s`, the promise has resolved by
second `t` exactly when some code event occurred at or before `t`. -/
def pairWaitResolvedBy (events : Nat → Option String) (t : Nat) : Bool :=
  (List.range (t + 1)).any (fun s => (events s).isSome)

/-- Primitive actions of the synchronous body of `initializeClient`, in
source order. -/
inductive InitAction where
  | registerHandlers
  | startHandshake
  | storeClient
  | setStatusInitializing
deriving DecidableEq

/-- Statement order of `initializeClient` in src/ClientManager.js (lines
41-83): handlers registered, `client.initialize()` invoked, then
`this.clients.set(token, client)` and `this.statuses.set(token,
'initializing')`. -/
def initOrder_ClientManager : List InitAction :=
  [.registerHandlers, .startHandshake, .storeClient, .setStatusInitializing]

/-- Statement order of the `initializeClient` variant kept alongside
src/index.js (lines 389-394): the client is stored and marked
`'initializing'` before `client.initialize()` is invoked. -/
def initOrder_indexVariant : List InitAction :=
  [.registerHandlers, .storeClient, .setStatusInitializing, .startHandshake]

/-- Does the trace store the session strictly before starting the
handshake? -/
def storesBeforeHandshake (l : List InitAction) : Bool :=
  decide (l.indexOf InitAction.storeClient < l.indexOf InitAction.startHandshake)

/-- Which event handlers may fire in which registry state, per the spec's
state machine (§4.2): artifacts and handshake outcomes occur while the
session is still handshaking (code status `'initializing'`, covering the
spec's `Initializing` and `AwaitingCode`), and a remote-initiated disconnect
occurs from `Authenticated`. -/
def eventOk (st : CMState) : CMEvent → Bool
  | .qr token _ => decide (getStatus st token = "initializing")
  | .ready token => decide (getStatus st token = "initializing")
  | .authFailure token => decide (getStatus st token = "initializing")
  | .disconnected token => decide (getStatus st token = "authenticated")

/-- A sequence of lifecycle events each of which is permitted by the spec's
state machine in the state where it is delivered. -/
def validFrom (st : CMState) : List CMEvent → Bool
  | [] => true
  | e :: es => eventOk st e && validFrom (applyEvent st e) es

/-- The artifact invariant: no token whose status is `'authenticated'`,
`'auth_failure'` or `'logged_out'` has a retrievable QR artifact. -/
def artifactInv (st : CMState) : Prop :=
  ∀ t : String,
    (getStatus st t = "authenticated" ∨ getStatus st t = "auth_failure" ∨
      getStatus st t = "logged_out") →
    getQRCode st t = none

theorem artifactInv_applyEvent (st : CMState) (e : CMEvent)
    (hInv : artifactInv st) (hok : eventOk st e = true) :
    artifactInv (applyEvent st e) := by
  cases e with
  | qr token q =>
    have hs : getStatus st token = "initializing" := by simpa [eventOk] using hok
    intro u hu
    have hstat : getStatus (applyEvent st (CMEvent.qr token q)) u = getStatus st u := rfl
    rw [hstat] at hu
    by_cases hut : u = token
    · subst hut
      rcases hu with h | h | h <;> rw [hs] at h <;> exact absurd h (by decide)
    · have hqr : getQRCode (applyEvent st (CMEvent.qr token q)) u = getQRCode st u := by
        simp [getQRCode, applyEvent, mlookup_mset_ne _ _ _ _ hut]
      rw [hqr]
      exact hInv u hu
  | ready token =>
    intro u hu
    by_cases hut : u = token
    · subst hut
      simp [getQRCode, applyEvent, mlookup_mdel_self]
    · have hstat : getStatus (applyEvent st (CMEvent.ready token)) u = getStatus st u := by
        simp [getStatus, applyEvent, mlookup_mset_ne _ _ _ _ hut]
      have hqr : getQRCode (applyEvent st (CMEvent.ready token)) u = getQRCode st u := by
        simp [getQRCode, applyEvent, mlookup_mdel_ne _ _ _ hut]
      rw [hstat] at hu
      rw [hqr]
      exact hInv u hu
  | authFailure token =>
    intro u hu
    by_cases hut : u = token
    · subst hut
      simp [getQRCode, applyEvent, mlookup_mdel_self]
    · have hstat : getStatus (applyEvent st (CMEvent.authFailure token)) u = getStatus st u := by
        simp [getStatus, applyEvent, mlookup_mset_ne _ _ _ _ hut]
      have hqr : getQRCode (applyEvent st (CMEvent.authFailure token)) u = getQRCode st u := by
        simp [getQRCode, applyEvent, mlookup_mdel_ne _ _ _ hut]
      rw [hstat] at hu
      rw [hqr]
      exact hInv u hu
  | disconnected token =>
    have hs : getStatus st token = "authenticated" := by simpa [eventOk] using hok
    intro u hu
    have hqr : getQRCode (applyEvent st (CMEvent.disconnected token)) u = getQRCode st u := rfl
    rw [hqr]
    by_cases hut : u = token
    · subst hut
      exact hInv u (Or.inl hs)
    · have hstat : getStatus (applyEvent st (CMEvent.disconnected token)) u = getStatus st u := by
        simp [getStatus, applyEvent, mlookup_mset_ne _ _ _ _ hut]
      rw [hstat] at hu
      exact hInv u hu

theorem artifactInv_validFrom (es : List CMEvent) (st : CMState)
    (hInv : artifactInv st) (hv : validFrom st es = true) :
    artifactInv (applyEvents st es) := by
  induction es generalizing st with
  | nil => simpa [applyEvents] using hInv
  | cons e rest ih =>
    simp only [validFrom, Bool.and_eq_true] at hv
    exact ih (applyEvent st e) (artifactInv_applyEvent st e hInv hv.1) hv.2

theorem artifactInv_init (st : CMState) (token : String) (h : Nat)
    (hInv : artifactInv st) : artifactInv (initializeClient st token h).1 := by
  by_cases hc : (mlookup st.clients token).isSome = true
  · simpa [initializeClient, hc] using hInv
  · intro u hu
    by_cases hut : u = token
    · subst hut
      have hs : getStatus (initializeClient st u h).1 u = "initializing" := by
        simp [initializeClient, hc, getStatus, mlookup_mset_self]
      rw [hs] at hu
      rcases hu with h' | h' | h' <;> exact absurd h' (by decide)
    · have hstat : getStatus (initializeClient st token h).1 u = getStatus st u := by
        simp [initializeClient, hc, getStatus, mlookup_mset_ne _ _ _ _ hut]
      have hqr : getQRCode (initializeClient st token h).1 u = getQRCode st u := by
        simp [initializeClient, hc, getQRCode]
      rw [hstat] at hu
      rw [hqr]
      exact hInv u hu

/-- C1: a second `initializeClient` for a token already present in the
registry throws `AlreadyExists` and leaves the state unchanged; for an
absent token it succeeds and stores the session with status
`'initializing'` (src/ClientManager.js lines 20-84). -/
theorem C1_unique_session (st : CMState) (token : String) (h : Nat) :
    ((mlookup st.clients token).isSome = true →
      initializeClient st token h = (st, some CMError.alreadyExists)) ∧
    (mlookup st.clients token = none →
      (initializeClient st token h).2 = none ∧
      mlookup (initializeClient st token h).1.clients token = some h ∧
      getStatus (initializeClient st token h).1 token = "initializing") := by
  constructor
  · intro hs
    simp [initializeClient, hs]
  · intro hn
    have hs : ¬ (mlookup st.clients token).isSome = true := by simp [hn]
    simp [initializeClient, hs, getStatus, mlookup_mset_self]

/-- Witness for C1 at concrete states: a occupied registry rejects the
duplicate create unchanged, an empty registry accepts it. -/
theorem C1_unique_session_witness :
    initializeClient ⟨[("t", 5)], [], [], []⟩ "t" 7 =
      (⟨[("t", 5)], [], [], []⟩, some CMError.alreadyExists) ∧
    getStatus (initializeClient ⟨[], [], [], []⟩ "t" 7).1 "t" = "initializing" :=
  ⟨(C1_unique_session ⟨[("t", 5)], [], [], []⟩ "t" 7).1 (by decide),
   ((C1_unique_session ⟨[], [], [], []⟩ "t" 7).2 (by decide)).2.2⟩

/-- C2: `sendText` and `sendImage` throw `NotFound` for an unknown token and
`NotAuthenticated` for any status other than `'authenticated'`
(src/ClientManager.js lines 94-120); an `Except.error` result carries no
delegated-send payload, so no send (and for images not even the fetch) is
performed in either failure case. -/
theorem C2_send_gating (st : CMState)
    (token number message imageUrl caption : String) (fetchOk : Bool) :
    (mlookup st.clients token = none →
      sendText st token number message = Except.error CMError.notFound ∧
      sendImage st token number imageUrl caption fetchOk =
        Except.error CMError.notFound) ∧
    (∀ c : Nat, mlookup st.clients token = some c →
      getStatus st token ≠ "authenticated" →
      sendText st token number message = Except.error CMError.notAuthenticated ∧
      sendImage st token number imageUrl caption fetchOk =
        Except.error CMError.notAuthenticated) := by
  constructor
  · intro hn
    simp [sendText, sendImage, hn]
  · intro c hc hs
    simp [sendText, sendImage, hc, hs]

/-- Witness for C2: a session still `'initializing'` rejects both sends with
`NotAuthenticated`. -/
theorem C2_send_gating_witness :
    sendText ⟨[("t", 1)], [], [("t", "initializing")], []⟩ "t" "15550001111" "hi" =
      Except.error CMError.notAuthenticated ∧
    sendImage ⟨[("t", 1)], [], [("t", "initializing")], []⟩ "t" "15550001111" "u" "c" true =
      Except.error CMError.notAuthenticated :=
  (C2_send_gating ⟨[("t", 1)], [], [("t", "initializing")], []⟩
    "t" "15550001111" "hi" "u" "c" true).2 1 (by decide) (by decide)

/-- C3 counterexample: the `disconnected` handler (src/ClientManager.js
lines 66-70) does not delete the stored QR code, so after `create`, a `qr`
event and a `disconnected` event the session is `'logged_out'` while
`getQRCode` still returns the artifact — the claim that a session never has
a non-null artifact while `LoggedOut` is false on the code. -/
theorem C3_counterexample :
    getStatus (applyEvents (initializeClient ⟨[], [], [], []⟩ "t" 0).1
      [CMEvent.qr "t" "QR", CMEvent.disconnected "t"]) "t" = "logged_out" ∧
    getQRCode (applyEvents (initializeClient ⟨[], [], [], []⟩ "t" 0).1
      [CMEvent.qr "t" "QR", CMEvent.disconnected "t"]) "t" = some "QR" := by
  decide

/-- C3 (amended): the artifact is cleared on entering `'authenticated'` and
`'auth_failure'` but not on `'logged_out'`; provided every event is
delivered in a state the spec's state machine permits (in particular a
disconnect only from `'authenticated'`), a session never has a non-null
artifact while `'authenticated'`, `'auth_failure'` or `'logged_out'`. -/
theorem C3_artifact_invariant (st : CMState) (token : String) (h : Nat)
    (es : List CMEvent) (hInv : artifactInv st)
    (hv : validFrom (initializeClient st token h).1 es = true) :
    artifactInv (applyEvents (initializeClient st token h).1 es) :=
  artifactInv_validFrom es _ (artifactInv_init st token h hInv) hv

/-- Witness for C3 (amended): the create → qr → ready run ends
authenticated with no artifact. -/
theorem C3_artifact_invariant_witness :
    getQRCode (applyEvents (initializeClient ⟨[], [], [], []⟩ "t" 0).1
      [CMEvent.qr "t" "Q", CMEvent.ready "t"]) "t" = none := by
  have hInv : artifactInv ⟨[], [], [], []⟩ := by
    intro u hu
    have hs : getStatus (⟨[], [], [], []⟩ : CMState) u = "unknown" := rfl
    rw [hs] at hu
    rcases hu with h | h | h <;> exact absurd h (by decide)
  exact C3_artifact_invariant ⟨[], [], [], []⟩ "t" 0
    [CMEvent.qr "t" "Q", CMEvent.ready "t"] hInv (by decide) "t" (Or.inl (by decide))

/-- C4 counterexample: when `fs.rmSync` fails, `removeSession`
(src/ClientManager.js lines 162-173) catches and logs the error, so the
in-memory removal succeeds but the per-token credential directory remains —
the claim that removal always results in no durable credential directory is
false on the code. -/
theorem C4_counterexample :
    (removeSession ⟨[("t", 0)], [("t", "Q")], [("t", "authenticated")], ["t"]⟩
      "t" false true).2 = none ∧
    "t" ∈ (removeSession ⟨[("t", 0)], [("t", "Q")], [("t", "authenticated")], ["t"]⟩
      "t" false true).1.dirs := by
  decide

/-- C4 (amended): for src/ClientManager.js's `removeSession`, the first
removal of a live token always completes without propagating a teardown or
filesystem failure and deletes the client, artifact and status entries; a
second removal fails with `NotFound` and changes nothing; and the credential
directory is gone whenever the filesystem delete does not fail (on a
filesystem error it may remain, the failure being only logged). -/
theorem removeSession_found (st : CMState) (token : String) (c : Nat) (df rf : Bool)
    (hc : mlookup st.clients token = some c) :
    removeSession st token df rf =
      ({ clients := mdel st.clients token,
         qrCodes := mdel st.qrCodes token,
         statuses := mdel st.statuses token,
         dirs := if token ∈ st.dirs ∧ rf = false
                 then st.dirs.filter (fun d => decide (d ≠ token))
                 else st.dirs }, none) := by
  simp only [removeSession, hc]
  by_cases h1 : token ∈ st.dirs
  · by_cases h2 : rf = true
    · simp [h1, h2]
    · simp [h1, h2]
  · simp [h1]

theorem C4_removal (st : CMState) (token : String) (c : Nat)
    (df rf df2 rf2 : Bool) (hc : mlookup st.clients token = some c) :
    (removeSession st token df rf).2 = none ∧
    mlookup (removeSession st token df rf).1.clients token = none ∧
    mlookup (removeSession st token df rf).1.qrCodes token = none ∧
    mlookup (removeSession st token df rf).1.statuses token = none ∧
    (rf = false → token ∉ (removeSession st token df rf).1.dirs) ∧
    removeSession (removeSession st token df rf).1 token df2 rf2 =
      ((removeSession st token df rf).1, some CMError.notFound) := by
  rw [removeSession_found st token c df rf hc]
  have hcl : mlookup (mdel st.clients token) token = none := mlookup_mdel_self _ _
  refine ⟨rfl, mlookup_mdel_self _ _, mlookup_mdel_self _ _, mlookup_mdel_self _ _, ?_, ?_⟩
  · intro hrf
    by_cases h1 : token ∈ st.dirs
    · simp [h1, hrf, List.mem_filter]
    · simp [h1]
  · simp only [removeSession, hcl]

/-- Witness for C4 at a concrete live session: removal completes, purges the
maps and the directory, and a second removal reports `NotFound`. -/
theorem C4_removal_witness :
    (removeSession ⟨[("t", 0)], [("t", "Q")], [("t", "authenticated")], ["t"]⟩
      "t" false false).2 = none ∧
    "t" ∉ (removeSession ⟨[("t", 0)], [("t", "Q")], [("t", "authenticated")], ["t"]⟩
      "t" false false).1.dirs ∧
    (removeSession (removeSession ⟨[("t", 0)], [("t", "Q")], [("t", "authenticated")], ["t"]⟩
      "t" false false).1 "t" false false).2 = some CMError.notFound := by
  have h := C4_removal ⟨[("t", 0)], [("t", "Q")], [("t", "authenticated")], ["t"]⟩
    "t" 0 false false false false (by decide)
  exact ⟨h.1, h.2.2.2.2.1 rfl, by rw [h.2.2.2.2.2]⟩

/-- C5: the concrete lifecycle scenario.  Starting from a token with no
session, `initializeClient` succeeds and the session is in the spec's
`Initializing` state; after the `qr` event `getQRCode` returns the artifact
and the session is in `AwaitingCode`; after the `ready` event `getQRCode`
returns `none` and the session is `Authenticated` (src/ClientManager.js
lines 41-55 and 86-92, viewed through the spec's state vocabulary where
`AwaitingCode` is status `'initializing'` with an artifact stored). -/
theorem C5_lifecycle_scenario (st : CMState) (token q : String) (h : Nat)
    (hns : noSession st token) (hq : q ≠ "") :
    (initializeClient st token h).2 = none ∧
    specStateView (initializeClient st token h).1 token = SpecState.Initializing ∧
    getQRCode (applyEvent (initializeClient st token h).1 (CMEvent.qr token q))
      token = some q ∧
    specStateView (applyEvent (initializeClient st token h).1 (CMEvent.qr token q))
      token = SpecState.AwaitingCode ∧
    getQRCode (applyEvent (applyEvent (initializeClient st token h).1
      (CMEvent.qr token q)) (CMEvent.ready token)) token = none ∧
    specStateView (applyEvent (applyEvent (initializeClient st token h).1
      (CMEvent.qr token q)) (CMEvent.ready token)) token = SpecState.Authenticated := by
  obtain ⟨hc, hqr0, hst0⟩ := hns
  have hcs : ¬ (mlookup st.clients token).isSome = true := by simp [hc]
  refine ⟨by simp [initializeClient, hcs], ?_, ?_, ?_, ?_, ?_⟩
  · simp [initializeClient, hcs, specStateView, getStatus, getQRCode,
      mlookup_mset_self, hqr0]
  · simp [initializeClient, hcs, applyEvent, getQRCode, mlookup_mset_self, hq]
  · simp [initializeClient, hcs, applyEvent, specStateView, getStatus, getQRCode,
      mlookup_mset_self, hq]
  · simp [applyEvent, getQRCode, mlookup_mdel_self]
  · simp [initializeClient, hcs, applyEvent, specStateView, getStatus, getQRCode,
      mlookup_mset_self, mlookup_mdel_self]

/-- Witness for C5 at the spec's concrete scenario A. -/
theorem C5_lifecycle_scenario_witness :
    specStateView (applyEvent (initializeClient ⟨[], [], [], []⟩ "+15551234567" 0).1
      (CMEvent.qr "+15551234567" "Q")) "+15551234567" = SpecState.AwaitingCode ∧
    specStateView (applyEvent (applyEvent (initializeClient ⟨[], [], [], []⟩ "+15551234567" 0).1
      (CMEvent.qr "+15551234567" "Q")) (CMEvent.ready "+15551234567")) "+15551234567" =
      SpecState.Authenticated := by
  have h := C5_lifecycle_scenario ⟨[], [], [], []⟩ "+15551234567" "Q" 0
    ⟨rfl, rfl, rfl⟩ (by decide)
  exact ⟨h.2.2.2.1, h.2.2.2.2.2⟩

theorem qrWaitAux_none (avail : Nat → Option String) :
    ∀ r t : Nat, (∀ s : Nat, s ≤ t + r → avail s = none) →
      qrWaitAux avail r t = none := by
  intro r
  induction r with
  | zero =>
    intro t h
    simp [qrWaitAux, h t (by omega)]
  | succ r ih =>
    intro t h
    have h0 : avail t = none := h t (by omega)
    simp only [qrWaitAux, h0]
    exact ih (t + 1) (fun s hs => h s (by omega))

theorem qrWaitAux_congr (avail avail' : Nat → Option String) :
    ∀ r t : Nat, (∀ s : Nat, s ≤ t + r → avail s = avail' s) →
      qrWaitAux avail r t = qrWaitAux avail' r t := by
  intro r
  induction r with
  | zero =>
    intro t h
    simp [qrWaitAux, h t (by omega)]
  | succ r ih =>
    intro t h
    have h0 : avail t = avail' t := h t (by omega)
    simp only [qrWaitAux, h0]
    cases avail' t with
    | some q => rfl
    | none => exact ih (t + 1) (fun s hs => h s (by omega))

/-- C6 counterexample: the `POST /pair` wait (`await new Promise` on the
`'code'` event, with no timer) is not bounded: when no code event ever
arrives the caller is still blocked at second 100 — far past the claimed
~10-second timeout — and no `ArtifactTimeout` error is ever delivered. -/
theorem C6_counterexample :
    pairWaitResolvedBy (fun _ => none) 100 = false := by
  decide

/-- C6 (amended): the QR-retrieval wait of `GET /qr/:token` is bounded — it
reads the artifact store only during the first ten seconds, and when no
artifact is available in that window the caller receives the timeout error
response — while the `POST /pair` wait resolves exactly when a code event
has arrived, with no timeout path at all. -/
theorem C6_wait_bounds (avail avail' events : Nat → Option String) (t : Nat)
    (hnone : ∀ s : Nat, s ≤ 10 → avail s = none)
    (hagree : ∀ s : Nat, s ≤ 10 → avail' s = avail s) :
    qrWait avail = none ∧
    qrWait avail' = qrWait avail ∧
    (pairWaitResolvedBy events t = true ↔
      ∃ s : Nat, s ≤ t ∧ (events s).isSome = true) := by
  refine ⟨qrWaitAux_none avail 10 0 (fun s hs => hnone s (by omega)), ?_, ?_⟩
  · exact qrWaitAux_congr avail' avail 10 0 (fun s hs => hagree s (by omega))
  · simp [pairWaitResolvedBy, List.any_eq_true, List.mem_range, Nat.lt_succ_iff]

/-- Witness for C6: with no artifact ever available, the QR wait returns the
timeout outcome, and the pairing wait is unresolved at second 3. -/
theorem C6_wait_bounds_witness :
    qrWait (fun _ => none) = none ∧
    pairWaitResolvedBy (fun _ => none) 3 = false := by
  have h := C6_wait_bounds (fun _ => none) (fun _ => none) (fun _ => none) 3
    (fun s _ => rfl) (fun s _ => rfl)
  refine ⟨h.1, ?_⟩
  by_contra hb
  have hb' : pairWaitResolvedBy (fun _ => none) 3 = true := by
    revert hb
    cases pairWaitResolvedBy (fun _ => none) 3 <;> simp
  obtain ⟨s, _, hs⟩ := h.2.2.mp hb'
  simp at hs

/-- C7 counterexample: in src/ClientManager.js's `initializeClient` the
statement order is `client.initialize()` (line 79) and only then
`this.clients.set(token, client)` / `this.statuses.set(token,
'initializing')` (lines 82-83), so the session is not stored before the
underlying client's handshake is started. -/
theorem C7_counterexample :
    storesBeforeHandshake initOrder_ClientManager = false := by
  decide

/-- C7 (amended): the `initializeClient` variant kept alongside src/index.js
stores the session before invoking `client.initialize()`; the primary
src/ClientManager.js version invokes `client.initialize()` first and stores
immediately after, but both statements sit in the same synchronous
run-to-completion body — modelled as the single atomic step
`initializeClient` — so a status read observes either the pre-state or a
state whose status for the token is `'initializing'`. -/
theorem C7_store_order :
    storesBeforeHandshake initOrder_indexVariant = true ∧
    initOrder_ClientManager.indexOf InitAction.startHandshake <
      initOrder_ClientManager.indexOf InitAction.storeClient ∧
    InitAction.storeClient ∈ initOrder_ClientManager ∧
    InitAction.startHandshake ∈ initOrder_ClientManager ∧
    (∀ (st : CMState) (token : String) (h : Nat),
      mlookup st.clients token = none →
      getStatus (initializeClient st token h).1 token = "initializing") := by
  refine ⟨by decide, by decide, by decide, by decide, ?_⟩
  intro st token h hn
  have hs : ¬ (mlookup st.clients token).isSome = true := by simp [hn]
  simp [initializeClient, hs, getStatus, mlookup_mset_self]

/-- Witness for C7: the atomic create step at a concrete empty registry. -/
theorem C7_store_order_witness :
    getStatus (initializeClient ⟨[], [], [], []⟩ "t" 0).1 "t" = "initializing" :=
  C7_store_order.2.2.2.2 ⟨[], [], [], []⟩ "t" 0 rfl

/-- C8: recipient normalization (`number.includes('@c.us') ? number :
number + '@c.us'`, src/ClientManager.js lines 104 and 118) leaves a string
already containing `'@c.us'` unchanged, appends the suffix otherwise, and is
idempotent on every input. -/
theorem C8_normalize_idempotent (x : String) :
    (jsIncludes x "@c.us" = true → normalizeChatId x = x) ∧
    (jsIncludes x "@c.us" = false → normalizeChatId x = x ++ "@c.us") ∧
    normalizeChatId (normalizeChatId x) = normalizeChatId x := by
  have happ : jsIncludes (x ++ "@c.us") "@c.us" = true := by
    have h : (x ++ "@c.us").toList = x.toList ++ "@c.us".toList := rfl
    rw [jsIncludes, h]
    exact containsB_append_self _ _
  by_cases hx : jsIncludes x "@c.us" = true
  · exact ⟨fun _ => by simp [normalizeChatId, hx],
      fun hfalse => by rw [hx] at hfalse; exact absurd hfalse (by decide),
      by simp [normalizeChatId, hx]⟩
  · have hx' : jsIncludes x "@c.us" = false := by
      revert hx
      cases jsIncludes x "@c.us" <;> simp
    refine ⟨fun htrue => by rw [hx'] at htrue; exact absurd htrue (by decide),
      fun _ => by simp [normalizeChatId, hx'], ?_⟩
    have h1 : normalizeChatId x = x ++ "@c.us" := by simp [normalizeChatId, hx']
    rw [h1, normalizeChatId, happ]
    simp

/-- Witness for C8 at concrete recipients with and without the suffix. -/
theorem C8_normalize_idempotent_witness :
    normalizeChatId "15550001111@c.us" = "15550001111@c.us" ∧
    normalizeChatId "15550001111" = "15550001111" ++ "@c.us" :=
  ⟨(C8_normalize_idempotent "15550001111@c.us").1 (by decide),
   (C8_normalize_idempotent "15550001111").2.1 (by decide)⟩

theorem mem_stripPlus (cs : List Char) (c : Char) (hc : c ∈ cs) (hne : c ≠ '+') :
    c ∈ stripPlus cs := by
  cases cs with
  | nil => simp at hc
  | cons a rest =>
    simp only [stripPlus]
    by_cases ha : a = '+'
    · simp only [ha, if_pos rfl]
      rcases List.mem_cons.mp hc with h | h
      · exact absurd (h.trans ha) hne
      · exact h
    · simpa [ha] using hc

/-- Any string containing an `'@'` character fails the E.164 test of
`validatePhoneNumber`. -/
theorem validatePhoneNumber_no_at (number : String)
    (hmem : '@' ∈ number.data) : validatePhoneNumber number = false := by
  have hmem' : '@' ∈ stripPlus number.data :=
    mem_stripPlus _ _ hmem (by decide)
  cases ht : stripPlus number.data with
  | nil => simp [validatePhoneNumber, ht]
  | cons c ds =>
    rw [ht] at hmem'
    rcases List.mem_cons.mp hmem' with h | h
    · have : c.isDigit = false := by rw [← h]; decide
      simp [validatePhoneNumber, ht, this]
    · have : ds.all Char.isDigit = false := by
        by_cases hall : ds.all Char.isDigit = true
        · exact absurd (List.all_eq_true.mp hall '@' h) (by decide)
        · revert hall
          cases ds.all Char.isDigit <;> simp
      simp [validatePhoneNumber, ht, this]

/-- C9: at the HTTP layer (src/index.js), any recipient number that already
carries the `'@c.us'` routing suffix fails the E.164 validation, so
`POST /send-text` and `POST /send-image-url` reject it before reaching the
normalization/delegated-send path: no `sent*` response is possible, and
whenever the request survives the earlier field and session checks the
response is exactly the invalid-recipient-format error. -/
theorem C9_suffix_rejected (st : CMState)
    (token number message imageUrl caption : String) (fetchOk : Bool)
    (hinc : jsIncludes number "@c.us" = true) :
    validatePhoneNumber number = false ∧
    (∀ c m : String, sendTextEndpoint st token number message ≠
      SendResp.sentText c m) ∧
    (∀ c u cap : String, sendImageEndpoint st token number imageUrl caption fetchOk ≠
      SendResp.sentImage c u cap) ∧
    (∀ cl : Nat, token ≠ "" → message ≠ "" → mlookup st.clients token = some cl →
      sendTextEndpoint st token number message = SendResp.invalidRecipient) ∧
    (∀ cl : Nat, token ≠ "" → imageUrl ≠ "" → mlookup st.clients token = some cl →
      sendImageEndpoint st token number imageUrl caption fetchOk =
        SendResp.invalidRecipient) := by
  have hat : '@' ∈ number.toList :=
    containsB_mem number.toList "@c.us".toList hinc '@' (by decide)
  have hval : validatePhoneNumber number = false := validatePhoneNumber_no_at number hat
  have hnum : number ≠ "" := by
    intro he
    rw [he] at hinc
    exact absurd hinc (by decide)
  refine ⟨hval, ?_, ?_, ?_, ?_⟩
  · intro c m
    simp only [sendTextEndpoint, hval]
    split_ifs <;> simp_all
  · intro c u cap
    simp only [sendImageEndpoint, hval]
    split_ifs <;> simp_all
  · intro cl h1 h3 hcl
    simp [sendTextEndpoint, h1, h3, hnum, hcl, hval]
  · intro cl h1 h3 hcl
    simp [sendImageEndpoint, h1, h3, hnum, hcl, hval]

/-- Witness for C9: a live session still rejects a suffixed recipient with
the invalid-recipient response on both endpoints. -/
theorem C9_suffix_rejected_witness :
    sendTextEndpoint ⟨[("t", 1)], [], [("t", "authenticated")], []⟩
      "t" "15550001111@c.us" "hi" = SendResp.invalidRecipient ∧
    sendImageEndpoint ⟨[("t", 1)], [], [("t", "authenticated")], []⟩
      "t" "15550001111@c.us" "http" "cap" true = SendResp.invalidRecipient := by
  have h := C9_suffix_rejected ⟨[("t", 1)], [], [("t", "authenticated")], []⟩
    "t" "15550001111@c.us" "hi" "http" "cap" true (by decide)
  exact ⟨h.2.2.2.1 1 (by decide) (by decide) (by decide),
    h.2.2.2.2 1 (by decide) (by decide) (by decide)⟩

/-- C10: for a token with no session, `getStatus` returns the sentinel
`'unknown'` — a value outside the lifecycle status set — and `getQRCode`
returns `null`; both are total (src/ClientManager.js lines 86-92). -/
theorem C10_unknown_token (st : CMState) (token : String)
    (hns : noSession st token) :
    getStatus st token = "unknown" ∧
    getQRCode st token = none ∧
    "unknown" ∉ (["initializing", "authenticated", "auth_failure",
      "logged_out"] : List String) := by
  obtain ⟨_, hq, hs⟩ := hns
  refine ⟨?_, ?_, by decide⟩
  · simp [getStatus, hs]
  · simp [getQRCode, hq]

/-- Witness for C10 at a registry holding an unrelated session. -/
theorem C10_unknown_token_witness :
    getStatus ⟨[("other", 3)], [("other", "Q")], [("other", "initializing")], []⟩ "t" =
      "unknown" ∧
    getQRCode ⟨[("other", 3)], [("other", "Q")], [("other", "initializing")], []⟩ "t" =
      none := by
  have h := C10_unknown_token
    ⟨[("other", 3)], [("other", "Q")], [("other", "initializing")], []⟩ "t"
    ⟨by decide, by decide, by decide⟩
  exact ⟨h.1, h.2.1⟩
